import Mathlib

/-!
Verification of the picoscope_mcp device manager and unit-conversion layer.

Shallow embedding of `src/picoscope_mcp/utils.py`, `models.py` and
`device_manager.py`. Python floats are modelled as rationals; numpy arrays as
lists; the vendor driver (picosdk `ps5000a` plus its helper functions
`mV2adc` / `adc2mV` / `assert_pico_ok`) is an external collaborator and is
modelled as an abstract `Driver` record of status codes and out-parameters,
with the picosdk convention that status 0 means success (`assert_pico_ok`
raises exactly on a non-zero status).
-/

namespace Picoscope

/-- Python `int(x)` on a float: truncation toward zero. -/
def pyTrunc (q : ℚ) : ℤ := if 0 ≤ q then ⌊q⌋ else ⌈q⌉

/-! ### utils.py -/

/-- Embedding of `utils.adc_to_mv`: `(adc_values / max_adc) * voltage_range * 1000`,
elementwise over a numpy array (modelled as a list of rationals). -/
def adc_to_mv (adc_values : List ℚ) (voltage_range : ℚ) (max_adc : ℤ) : List ℚ :=
  adc_values.map (fun a => a / (max_adc : ℚ) * voltage_range * 1000)

/-- Embedding of `utils.mv_to_adc` on a scalar input:
`int((mv_values / (voltage_range * 1000)) * max_adc)`. -/
def mv_to_adc (mv_values : ℚ) (voltage_range : ℚ) (max_adc : ℤ) : ℤ :=
  pyTrunc (mv_values / (voltage_range * 1000) * (max_adc : ℚ))

/-- Python exceptions that the conversion helpers could surface. -/
inductive PyExc where
  | zeroDivision
  | invalidArgument
deriving DecidableEq, Repr

/-- Embedding of `utils.mv_to_adc` with its Python failure behaviour made explicit: the
only fallible step is the scalar division `mv_values / (voltage_range * 1000)`
(ZeroDivisionError when the divisor is zero).  The multiplication by
`max_adc` and the `int(...)` truncation never raise; there is no guard on
`max_adc` anywhere in the function. -/
def mv_to_adc_run (mv_values : ℚ) (voltage_range : ℚ) (max_adc : ℤ) :
    Except PyExc ℤ :=
  if voltage_range * 1000 = 0 then .error .zeroDivision
  else .ok (pyTrunc (mv_values / (voltage_range * 1000) * (max_adc : ℚ)))

/-- Embedding of `utils.adc_to_mv` with its Python failure behaviour made explicit: numpy
array division never raises (division by zero yields non-finite float values
plus a runtime warning), so the function always returns normally; there is no
guard on `max_adc`.  (The non-finite values produced when `max_adc = 0` are
represented here by the Lean convention `a / 0 = 0`; what matters below is
only that the call returns a value rather than an error.) -/
def adc_to_mv_run (adc_values : List ℚ) (voltage_range : ℚ) (max_adc : ℤ) :
    Except PyExc (List ℚ) :=
  .ok (adc_to_mv adc_values voltage_range max_adc)

/-! ### The fixed range ladder

`device_manager.py` repeats the same `range_map` dict literal in
`configure_channel`, `set_trigger` and `capture_block`: keys are the ladder
of supported full-scale ranges in volts (in insertion order, ascending), and
values are the picosdk `PS5000A_RANGE` constant names. -/

/-- The ladder of supported ranges in volts, in the source's dict insertion
order (ascending). -/
def voltageLadder : List ℚ :=
  [0.02, 0.05, 0.1, 0.2, 0.5, 1.0, 2.0, 5.0, 10.0, 20.0]

/-- The `PS5000A_RANGE` constant name the source's `range_map` associates to
each ladder member (any non-ladder argument is never looked up). -/
def rangeNameOf (r : ℚ) : String :=
  if r = 0.02 then "PS5000A_20MV"
  else if r = 0.05 then "PS5000A_50MV"
  else if r = 0.1 then "PS5000A_100MV"
  else if r = 0.2 then "PS5000A_200MV"
  else if r = 0.5 then "PS5000A_500MV"
  else if r = 1.0 then "PS5000A_1V"
  else if r = 2.0 then "PS5000A_2V"
  else if r = 5.0 then "PS5000A_5V"
  else if r = 10.0 then "PS5000A_10V"
  else "PS5000A_20V"

/-- Embedding of `min(range_map.keys(), key=lambda x: abs(x - r))`: Python's `min` scans
the keys in insertion order and keeps the current best unless a strictly
smaller key-value appears, so the first element attaining the minimum wins. -/
def nearestSupportedRange (r : ℚ) : ℚ :=
  match voltageLadder with
  | [] => 0
  | x :: xs => xs.foldl (fun best y => if |y - r| < |best - r| then y else best) x

/-! ### models.py -/

/-- Embedding of `models.ChannelCoupling`. -/
inductive ChannelCoupling where
  | AC
  | DC
deriving DecidableEq, Repr

/-- Embedding of `models.TriggerDirection`. -/
inductive TriggerDirection where
  | Rising
  | Falling
  | RisingOrFalling
deriving DecidableEq, Repr

/-- Embedding of `models.DeviceInfo`. -/
structure DeviceInfo where
  handle : ℤ
  model : String
  serial : String
  variant : String
  batch_and_serial : String
  max_adc_value : ℤ
  min_adc_value : ℤ
  num_channels : ℤ
deriving DecidableEq, Repr

/-- Embedding of `models.ChannelConfig` (volt-valued fields as rationals). -/
structure ChannelConfig where
  channel : String
  enabled : Bool
  coupling : ChannelCoupling
  voltage_range : ℚ
  analog_offset : ℚ
deriving DecidableEq, Repr

/-- Embedding of `models.TriggerConfig`. -/
structure TriggerConfig where
  source : String
  threshold_mv : ℚ
  direction : TriggerDirection
  auto_trigger_ms : ℤ
deriving DecidableEq, Repr

/-- Embedding of `models.CaptureData`. -/
structure CaptureData where
  channel : String
  time_values : List ℚ
  voltage_values : List ℚ
  sample_interval_ns : ℤ
  num_samples : ℕ
deriving DecidableEq, Repr

/-! ### The external driver

All behaviour of the picosdk driver visible to `device_manager.py` is a
record of status codes and out-parameter values.  Status convention:
`assert_pico_ok(status)` passes exactly when `status = 0`. -/

/-- Abstract model of the picosdk `ps5000a` driver plus the `mV2adc` /
`adc2mV` helper functions from `picosdk.functions`. -/
structure Driver where
  /-- whether the `picosdk` import at module load time succeeded -/
  picosdkAvailable : Bool
  /-- status returned by `ps5000aOpenUnit` -/
  openUnitStatus : ℤ
  /-- handle value written through `byref(chandle)` by `ps5000aOpenUnit` -/
  openUnitHandle : ℤ
  /-- status returned by `ps5000aChangePowerSource` -/
  changePowerStatus : ℤ
  /-- statuses of the two `ps5000aGetUnitInfo` calls (recorded, never checked) -/
  getUnitInfoVariantStatus : ℤ
  getUnitInfoSerialStatus : ℤ
  /-- the `PICO_VARIANT_INFO` string -/
  variantInfo : String
  /-- the `PICO_BATCH_AND_SERIAL` string -/
  batchSerial : String
  /-- status of `ps5000aSetChannel`, per channel letter -/
  setChannelStatus : String → ℤ
  /-- status of `ps5000aSetSimpleTrigger` -/
  setSimpleTriggerStatus : ℤ
  /-- status of `ps5000aSetDataBuffer`, per channel letter -/
  setDataBufferStatus : String → ℤ
  /-- status of `ps5000aGetTimebase2` as a function of (timebase, noSamples) -/
  getTimebaseStatus : ℕ → ℕ → ℤ
  /-- the `timeIntervalNanoseconds` float written by `ps5000aGetTimebase2` -/
  timeIntervalNs : ℕ → ℚ
  /-- status of `ps5000aRunBlock` -/
  runBlockStatus : ℤ
  /-- number of `ps5000aIsReady` polls before the ready flag turns non-zero
  (the busy-wait loop makes `readyAfter + 1` calls in total) -/
  readyAfter : ℕ
  /-- status of the last `ps5000aIsReady` call -/
  isReadyStatus : ℤ
  /-- status of `ps5000aGetValues` -/
  getValuesStatus : ℤ
  /-- ADC sample written into a channel's registered buffer at an index -/
  sampleData : String → ℕ → ℤ
  /-- model of `picosdk.functions.mV2adc (millivolts, rangeConstantName, maxADC)` -/
  mV2adc : ℚ → String → ℤ → ℤ
  /-- model of `picosdk.functions.adc2mV` applied elementwise -/
  adc2mV : ℤ → String → ℤ → ℚ

/-- One call into the driver, with the arguments the manager passes. -/
inductive DriverCall where
  | setChannel (channel : String) (enabled : ℤ) (coupling : String)
      (rangeName : String) (analogOffsetAdc : ℤ)
  | setSimpleTrigger (enable : ℤ) (source : String) (thresholdAdc : ℤ)
      (direction : String) (delay : ℤ) (autoTriggerMs : ℤ)
  | setDataBuffer (channel : String) (bufferLen : ℕ) (segment : ℕ)
      (downsampleMode : String)
  | getTimebase2 (timebase : ℕ) (noSamples : ℕ) (segment : ℕ)
  | runBlock (preTrigger : ℕ) (postTrigger : ℕ) (timebase : ℕ)
  | isReady
  | getValues (startIndex : ℕ) (noSamples : ℕ) (downsampleFactor : ℕ)
      (downsampleMode : String) (segment : ℕ)
deriving DecidableEq, Repr

/-! ### Device manager state

Python dicts (`channel_configs`, `status`) are modelled as association
lists in insertion order; updating an existing key keeps its position
(Python dict semantics), inserting a new key appends. -/

/-- Insertion-ordered dict update `d[k] = v`. -/
def dictSet {α : Type} (d : List (String × α)) (k : String) (v : α) :
    List (String × α) :=
  match d with
  | [] => [(k, v)]
  | (k0, v0) :: rest =>
    if k0 = k then (k0, v) :: rest else (k0, v0) :: dictSet rest k v

/-- Dict lookup `d[k]` (as `k in d` + subscript). -/
def dictGet {α : Type} (d : List (String × α)) (k : String) : Option α :=
  match d with
  | [] => none
  | (k0, v0) :: rest => if k0 = k then some v0 else dictGet rest k

/-- The mutable fields of `PicoScopeManager`.  `current_device` holds an
opaque Python object or `None`; the code only ever compares it with `None`,
so it is modelled as `Option Unit`.  `chandle` is `None` or a
`ctypes.c_int16` holding the handle value. -/
structure PicoScopeManager where
  current_device : Option Unit
  device_info : Option DeviceInfo
  channel_configs : List (String × ChannelConfig)
  chandle : Option ℤ
  status : List (String × ℤ)
deriving DecidableEq, Repr

/-- Embedding of `PicoScopeManager.__init__`. -/
def initialManager : PicoScopeManager :=
  { current_device := none
    device_info := none
    channel_configs := []
    chandle := none
    status := [] }

/-- Result of one manager operation: the Python return value, the state the
manager fields are left in, and the driver calls issued (in order). -/
structure OpResult (α : Type) where
  value : α
  state : PicoScopeManager
  calls : List DriverCall
deriving DecidableEq, Repr

/-- Embedding of `PicoScopeManager.is_connected`: `self.current_device is not None`. -/
def is_connected (s : PicoScopeManager) : Bool :=
  s.current_device.isSome

/-- Embedding of `PicoScopeManager.get_info`: returns `self.device_info`. -/
def get_info (s : PicoScopeManager) : Option DeviceInfo :=
  s.device_info

/-- Tail of a successful `connect`: the two `ps5000aGetUnitInfo` calls (both
statuses recorded under the same `"getUnitInfo"` key, neither checked) and
the construction of `DeviceInfo` with the hard-coded PS5000A constants.
Note that `current_device` is not assigned anywhere in `connect`. -/
def connectFinish (drv : Driver) (s : PicoScopeManager) : PicoScopeManager :=
  let s1 := { s with status := dictSet s.status "getUnitInfo" drv.getUnitInfoVariantStatus }
  let s2 := { s1 with status := dictSet s1.status "getUnitInfo" drv.getUnitInfoSerialStatus }
  { s2 with
    device_info := some
      { handle := drv.openUnitHandle
        model := "PS5000A"
        serial := drv.batchSerial
        variant := drv.variantInfo
        batch_and_serial := drv.batchSerial
        max_adc_value := 32767
        min_adc_value := -32767
        num_channels := 4 } }

/-- Embedding of `PicoScopeManager.connect`: returns `False` when picosdk is missing;
otherwise opens the unit, runs the power-source renegotiation sub-protocol
when `openunit` fails with code 286 or 282, and on success stores
`device_info` (handle already stored in `chandle`).  Any failure clears
`chandle` and `device_info` and returns `False`. -/
def connect (drv : Driver) (s : PicoScopeManager) : Bool × PicoScopeManager :=
  if drv.picosdkAvailable = false then (false, s)
  else
    let s1 := { s with
      chandle := some drv.openUnitHandle
      status := dictSet s.status "openunit" drv.openUnitStatus }
    if drv.openUnitStatus = 0 then (true, connectFinish drv s1)
    else if drv.openUnitStatus = 286 ∨ drv.openUnitStatus = 282 then
      let s2 := { s1 with status := dictSet s1.status "changePowerSource" drv.changePowerStatus }
      if drv.changePowerStatus = 0 then (true, connectFinish drv s2)
      else (false, { s2 with chandle := none, device_info := none })
    else (false, { s1 with chandle := none, device_info := none })

/-- Embedding of `PicoScopeManager.disconnect`: `if self.chandle:` is ctypes truthiness —
false when `chandle` is `None` and when it is a `c_int16` holding 0 — so in
those cases nothing is touched and `True` is returned; otherwise the unit is
stopped and closed and every session field is cleared. -/
def disconnect (s : PicoScopeManager) : Bool × PicoScopeManager :=
  match s.chandle with
  | none => (true, s)
  | some h =>
    if h = 0 then (true, s)
    else
      (true,
        { current_device := none
          device_info := none
          channel_configs := []
          chandle := none
          status := [] })

/-- The keys of `channel_map` in `configure_channel` / `capture_block`. -/
def validChannels : List String := ["A", "B", "C", "D"]

/-- The keys of `source_map` in `set_trigger`. -/
def validSources : List String := ["A", "B", "C", "D", "External"]

/-- The `PS5000A_COUPLING` constant name chosen for a coupling value. -/
def couplingNameOf (c : ChannelCoupling) : String :=
  match c with
  | .AC => "PS5000A_AC"
  | .DC => "PS5000A_DC"

/-- The `PS5000A_THRESHOLD_DIRECTION` constant name for a direction value. -/
def directionNameOf (d : TriggerDirection) : String :=
  match d with
  | .Rising => "PS5000A_RISING"
  | .Falling => "PS5000A_FALLING"
  | .RisingOrFalling => "PS5000A_RISING_OR_FALLING"

/-- Embedding of `PicoScopeManager.configure_channel`: not-connected and unknown-channel
checks, nearest-range selection, analog-offset conversion through the
driver's `mV2adc` (0 when no `device_info`), the `ps5000aSetChannel` call
with its status recorded under `"setCh<channel>"`, and — only when that
status passes `assert_pico_ok` — the store of the config into
`channel_configs`. -/
def configure_channel (drv : Driver) (s : PicoScopeManager)
    (config : ChannelConfig) : OpResult Bool :=
  if is_connected s = false then ⟨false, s, []⟩
  else if config.channel ∉ validChannels then ⟨false, s, []⟩
  else
    let rangeName := rangeNameOf (nearestSupportedRange config.voltage_range)
    let analog_offset_adc :=
      match s.device_info with
      | some info => drv.mV2adc (config.analog_offset * 1000) rangeName info.max_adc_value
      | none => 0
    let st := drv.setChannelStatus config.channel
    let s1 := { s with status := dictSet s.status ("setCh" ++ config.channel) st }
    let call := DriverCall.setChannel config.channel
      (if config.enabled then 1 else 0) (couplingNameOf config.coupling)
      rangeName analog_offset_adc
    if st = 0 then
      ⟨true,
        { s1 with channel_configs := dictSet s1.channel_configs config.channel config },
        [call]⟩
    else ⟨false, s1, [call]⟩

/-- Embedding of `PicoScopeManager.set_trigger`: not-connected and unknown-source checks;
the threshold range is the nearest supported range of the *source* channel's
stored config when `config.source in self.channel_configs`, else the
`PS5000A_2V` default; the threshold is converted through the driver's
`mV2adc` with `device_info.max_adc_value` (32767 fallback) and passed to
`ps5000aSetSimpleTrigger` with enable=1 and delay=0. -/
def set_trigger (drv : Driver) (s : PicoScopeManager)
    (config : TriggerConfig) : OpResult Bool :=
  if is_connected s = false then ⟨false, s, []⟩
  else if config.source ∉ validSources then ⟨false, s, []⟩
  else
    let rangeName :=
      match dictGet s.channel_configs config.source with
      | some chCfg => rangeNameOf (nearestSupportedRange chCfg.voltage_range)
      | none => "PS5000A_2V"
    let maxAdc :=
      match s.device_info with
      | some info => info.max_adc_value
      | none => 32767
    let thresholdAdc := drv.mV2adc config.threshold_mv rangeName maxAdc
    let st := drv.setSimpleTriggerStatus
    let s1 := { s with status := dictSet s.status "trigger" st }
    let call := DriverCall.setSimpleTrigger 1 config.source thresholdAdc
      (directionNameOf config.direction) 0 config.auto_trigger_ms
    ⟨st = 0, s1, [call]⟩

/-! ### capture_block -/

/-- Outcome of the timebase negotiation in `capture_block`: the final
timebase index, the final `getTimebase` status, and the list of timebase
indices passed to `ps5000aGetTimebase2`, in call order. -/
structure TimebaseResult where
  timebase : ℕ
  status : ℤ
  calls : List ℕ
deriving DecidableEq, Repr

/-- The `while self.status["getTimebase"] != 0 and timebase < 100:` loop.
`fuel` is `100 - timebase`, so the guard `timebase < 100` is `fuel > 0`;
each iteration increments the timebase and issues a fresh
`ps5000aGetTimebase2` call. -/
def timebaseSearch (drv : Driver) (total : ℕ) :
    ℕ → ℕ → ℤ → TimebaseResult
  | 0, tb, st => ⟨tb, st, []⟩
  | fuel + 1, tb, st =>
    if st ≠ 0 then
      let r := timebaseSearch drv total fuel (tb + 1)
        (drv.getTimebaseStatus (tb + 1) total)
      ⟨r.timebase, r.status, (tb + 1) :: r.calls⟩
    else ⟨tb, st, []⟩

/-- Timebase negotiation, lines 383-409 of `device_manager.py`: first call
at index 0, then the retry loop bounded by `timebase < 100`. -/
def negotiateTimebase (drv : Driver) (total : ℕ) : TimebaseResult :=
  let r := timebaseSearch drv total 100 0 (drv.getTimebaseStatus 0 total)
  ⟨r.timebase, r.status, 0 :: r.calls⟩

/-- Outcome of the buffer-registration loop in `capture_block`. -/
structure BufferSetup where
  ok : Bool
  state : PicoScopeManager
  calls : List DriverCall
  buffers : List (String × ChannelConfig)
deriving DecidableEq, Repr

/-- The `for ch_name, ch_config in self.channel_configs.items():` loop of
`capture_block`: for each enabled channel, register a zeroed buffer of
length `total` through `ps5000aSetDataBuffer` and check its status; the
first rejected registration raises out of the loop (later channels are not
reached).  `buffers` collects the enabled `(name, config)` pairs in dict
insertion order, mirroring the `buffers` dict. -/
def setBuffersLoop (drv : Driver) (total : ℕ) :
    List (String × ChannelConfig) → PicoScopeManager → List DriverCall →
    BufferSetup
  | [], s, calls => ⟨true, s, calls, []⟩
  | (ch, cfg) :: rest, s, calls =>
    if cfg.enabled then
      let st := drv.setDataBufferStatus ch
      let s1 := { s with status := dictSet s.status ("setDataBuffer" ++ ch) st }
      let calls1 := calls ++
        [DriverCall.setDataBuffer ch total 0 "PS5000A_RATIO_MODE_NONE"]
      if st = 0 then
        let r := setBuffersLoop drv total rest s1 calls1
        ⟨r.ok, r.state, r.calls, (ch, cfg) :: r.buffers⟩
      else ⟨false, s1, calls1, []⟩
    else setBuffersLoop drv total rest s calls

/-- The per-channel conversion at the end of `capture_block`: look up the
channel's nearest supported range, convert the raw buffer through the
driver's `adc2mV`, and package a `CaptureData` whose time axis is
`arange(total) * (time_interval_ns / 1e9)` and whose `sample_interval_ns`
is `int(time_interval_ns.value)`. -/
def buildCaptureData (drv : Driver) (maxAdc : ℤ) (total : ℕ)
    (intervalNs : ℚ) (ch : String) (cfg : ChannelConfig) : CaptureData :=
  let rangeName := rangeNameOf (nearestSupportedRange cfg.voltage_range)
  let adcValues := (List.range total).map (fun i => drv.sampleData ch i)
  { channel := ch
    time_values := (List.range total).map (fun i => (i : ℚ) * (intervalNs / 1000000000))
    voltage_values := adcValues.map (fun a => drv.adc2mV a rangeName maxAdc)
    sample_interval_ns := pyTrunc intervalNs
    num_samples := total }

/-- Embedding of `PicoScopeManager.capture_block`: not-connected check, buffer setup for
the enabled channels, timebase negotiation, `ps5000aRunBlock`, the
`ps5000aIsReady` busy-wait, `ps5000aGetValues` (overflow observed but
dropped), then per-channel conversion.  Every driver rejection raises into
the `except` handler, which returns `None`; mutations of the `status` dict
made before the raise persist. -/
def capture_block (drv : Driver) (s : PicoScopeManager)
    (pre_trigger post_trigger : ℕ) :
    OpResult (Option (List (String × CaptureData))) :=
  if is_connected s = false then ⟨none, s, []⟩
  else
    let total := pre_trigger + post_trigger
    let b := setBuffersLoop drv total s.channel_configs s []
    if b.ok = false then ⟨none, b.state, b.calls⟩
    else
      let nt := negotiateTimebase drv total
      let s2 := { b.state with status := dictSet b.state.status "getTimebase" nt.status }
      let calls2 := b.calls ++ nt.calls.map (fun tb => DriverCall.getTimebase2 tb total 0)
      if nt.status ≠ 0 then ⟨none, s2, calls2⟩
      else
        let s3 := { s2 with status := dictSet s2.status "runBlock" drv.runBlockStatus }
        let calls3 := calls2 ++ [DriverCall.runBlock pre_trigger post_trigger nt.timebase]
        if drv.runBlockStatus ≠ 0 then ⟨none, s3, calls3⟩
        else
          let s4 := { s3 with status := dictSet s3.status "isReady" drv.isReadyStatus }
          let calls4 := calls3 ++ List.replicate (drv.readyAfter + 1) DriverCall.isReady
          let s5 := { s4 with status := dictSet s4.status "getValues" drv.getValuesStatus }
          let calls5 := calls4 ++
            [DriverCall.getValues 0 total 1 "PS5000A_RATIO_MODE_NONE" 0]
          if drv.getValuesStatus ≠ 0 then ⟨none, s5, calls5⟩
          else
            let maxAdc :=
              match s.device_info with
              | some info => info.max_adc_value
              | none => 32767
            let intervalNs := drv.timeIntervalNs nt.timebase
            let result := b.buffers.map
              (fun p => (p.1, buildCaptureData drv maxAdc total intervalNs p.1 p.2))
            ⟨some result, s5, calls5⟩

/-- Embedding of `PicoScopeManager.start_streaming` (stub): not-connected check, then an
unimplemented body returning `True`. -/
def start_streaming (s : PicoScopeManager) : Bool :=
  if is_connected s = false then false else true

/-- Embedding of `PicoScopeManager.stop_streaming` (stub): same shape. -/
def stop_streaming (s : PicoScopeManager) : Bool :=
  if is_connected s = false then false else true

/-! ### Operation sequences

For the state invariant of claim C1 we close the manager's public API into
a step function over an arbitrary operation sequence; each call may face an
arbitrary driver environment. -/

/-- One public operation of `PicoScopeManager`.  `discover_devices`,
`is_connected`, `get_info`, `start_streaming` and `stop_streaming` read but
never write the manager fields. -/
inductive ManagerOp where
  | discoverDevices
  | connectOp
  | disconnectOp
  | isConnectedOp
  | getInfoOp
  | configureChannelOp (config : ChannelConfig)
  | setTriggerOp (config : TriggerConfig)
  | captureBlockOp (pre_trigger post_trigger : ℕ)
  | startStreamingOp
  | stopStreamingOp

/-- The manager state after one operation. -/
def stepManager (drv : Driver) (s : PicoScopeManager) : ManagerOp → PicoScopeManager
  | .discoverDevices => s
  | .connectOp => (connect drv s).2
  | .disconnectOp => (disconnect s).2
  | .isConnectedOp => s
  | .getInfoOp => s
  | .configureChannelOp config => (configure_channel drv s config).state
  | .setTriggerOp config => (set_trigger drv s config).state
  | .captureBlockOp pre post => (capture_block drv s pre post).state
  | .startStreamingOp => s
  | .stopStreamingOp => s

/-- The manager state after a sequence of operations from `__init__`, each
with its own driver environment. -/
def runManager (ops : List (Driver × ManagerOp)) : PicoScopeManager :=
  ops.foldl (fun s p => stepManager p.1 s p.2) initialManager

/-! ### Concrete driver environments (used for witnesses and counterexamples) -/

/-- A cooperative driver: picosdk present, every status 0, 8 ns sample
interval, ready on the first poll. -/
def drvAccept : Driver :=
  { picosdkAvailable := true
    openUnitStatus := 0
    openUnitHandle := 16384
    changePowerStatus := 0
    getUnitInfoVariantStatus := 0
    getUnitInfoSerialStatus := 0
    variantInfo := "5444D"
    batchSerial := "JX001/0001"
    setChannelStatus := fun _ => 0
    setSimpleTriggerStatus := 0
    setDataBufferStatus := fun _ => 0
    getTimebaseStatus := fun _ _ => 0
    timeIntervalNs := fun _ => 8
    runBlockStatus := 0
    readyAfter := 0
    isReadyStatus := 0
    getValuesStatus := 0
    sampleData := fun _ _ => 0
    mV2adc := fun mv _ m => pyTrunc (mv * (m : ℚ) / 2000)
    adc2mV := fun a _ _ => (a : ℚ) }

/-- Like `drvAccept` but `ps5000aGetTimebase2` rejects every timebase. -/
def drvRejectTimebase : Driver :=
  { drvAccept with getTimebaseStatus := fun _ _ => 1 }

/-- Like `drvAccept` but `ps5000aSetChannel` rejects every channel. -/
def drvRejectChannel : Driver :=
  { drvAccept with setChannelStatus := fun _ => 13 }

/-! ### C6 / C7 / C8: the unit-conversion layer -/

/-- Truncation of an integer-valued rational is the integer itself. -/
theorem pyTrunc_intCast (x : ℤ) : pyTrunc (x : ℚ) = x := by
  unfold pyTrunc
  split <;> simp

/-- C6: for every integer `x` in `[-max_adc, max_adc]`, every ladder range
and every positive `max_adc`, converting `x` through `adc_to_mv` and back
through `mv_to_adc` lands within one ADC count of `x` (in exact rational
arithmetic the roundtrip is exact, so the distance is 0 ≤ 1). -/
theorem c6_adc_mv_roundtrip (x : ℤ) (r : ℚ) (m : ℤ)
    (hr : r ∈ voltageLadder) (hm : 0 < m) (hx1 : -m ≤ x) (hx2 : x ≤ m) :
    ∀ v ∈ adc_to_mv [(x : ℚ)] r m, (mv_to_adc v r m - x).natAbs ≤ 1 := by
  have hr0 : r ≠ 0 := by
    have h : ∀ y ∈ voltageLadder, y ≠ 0 := by
      intro y hy
      simp only [voltageLadder] at hy
      fin_cases hy <;> norm_num
    exact h r hr
  have hm0 : (m : ℚ) ≠ 0 := Int.cast_ne_zero.mpr (ne_of_gt hm)
  intro v hv
  simp only [adc_to_mv, List.map_cons, List.map_nil, List.mem_singleton] at hv
  subst hv
  have harg : (x : ℚ) / (m : ℚ) * r * 1000 / (r * 1000) * (m : ℚ) = (x : ℚ) := by
    field_simp
    ring
  show (pyTrunc ((x : ℚ) / (m : ℚ) * r * 1000 / (r * 1000) * (m : ℚ)) - x).natAbs ≤ 1
  rw [harg, pyTrunc_intCast, sub_self]
  simp

/-- Witness for C6 at `x = 100`, `r = 5` V, `max_adc = 32767`: the value
100 survives the roundtrip through the (singleton) converted array. -/
theorem c6_witness :
    (mv_to_adc (adc_to_mv [(100 : ℚ)] 5 32767).headI 5 32767 - 100).natAbs ≤ 1 :=
  c6_adc_mv_roundtrip 100 5 32767 (by norm_num [voltageLadder])
    (by norm_num) (by norm_num) (by norm_num)
    ((adc_to_mv [(100 : ℚ)] 5 32767).headI) (by simp [adc_to_mv])

/-- The result of Python's first-minimum fold is an element of the list. -/
theorem foldlMinBy_mem (f : ℚ → ℚ) : ∀ (xs : List ℚ) (x : ℚ),
    xs.foldl (fun best y => if f y < f best then y else best) x ∈ x :: xs := by
  intro xs
  induction xs with
  | nil => intro x; simp
  | cons z zs ih =>
    intro x
    simp only [List.foldl_cons]
    by_cases h : f z < f x
    · rw [if_pos h]
      exact List.mem_cons_of_mem x (ih z)
    · rw [if_neg h]
      rcases List.mem_cons.mp (ih x) with h1 | h1
      · rw [h1]; exact List.mem_cons_self x _
      · exact List.mem_cons_of_mem x (List.mem_cons_of_mem z h1)

/-- The result of Python's first-minimum fold minimizes the key over the
whole list (initial element included). -/
theorem foldlMinBy_le (f : ℚ → ℚ) : ∀ (xs : List ℚ) (x : ℚ) (y : ℚ), y ∈ x :: xs →
    f (xs.foldl (fun best z => if f z < f best then z else best) x) ≤ f y := by
  intro xs
  induction xs with
  | nil =>
    intro x y hy
    simp only [List.foldl_nil]
    rcases List.mem_cons.mp hy with rfl | h
    · exact le_refl _
    · simp at h
  | cons z zs ih =>
    intro x y hy
    simp only [List.foldl_cons]
    by_cases h : f z < f x
    · rw [if_pos h]
      rcases List.mem_cons.mp hy with h1 | hy2
      · rw [h1]
        exact le_trans (ih z z (List.mem_cons_self _ _)) (le_of_lt h)
      · exact ih z y hy2
    · rw [if_neg h]
      rcases List.mem_cons.mp hy with h1 | hy2
      · rw [h1]
        exact ih x x (List.mem_cons_self _ _)
      · rcases List.mem_cons.mp hy2 with h2 | hy3
        · rw [h2]
          exact le_trans (ih x x (List.mem_cons_self _ _)) (not_lt.mp h)
        · exact ih x y (List.mem_cons_of_mem _ hy3)

/-- C7: the nearest-supported-range selection always returns a ladder
member, minimizes the absolute difference to the request over the ladder,
and returns an exact match when the request is itself a ladder member. -/
theorem c7_nearest_supported_range (r : ℚ) :
    nearestSupportedRange r ∈ voltageLadder ∧
    (∀ y ∈ voltageLadder, |nearestSupportedRange r - r| ≤ |y - r|) ∧
    (r ∈ voltageLadder → nearestSupportedRange r = r) := by
  have hmem : nearestSupportedRange r ∈ voltageLadder :=
    foldlMinBy_mem (fun t => |t - r|)
      [0.05, 0.1, 0.2, 0.5, 1.0, 2.0, 5.0, 10.0, 20.0] 0.02
  have hmin : ∀ y ∈ voltageLadder, |nearestSupportedRange r - r| ≤ |y - r| :=
    fun y hy => foldlMinBy_le (fun t => |t - r|)
      [0.05, 0.1, 0.2, 0.5, 1.0, 2.0, 5.0, 10.0, 20.0] 0.02 y hy
  refine ⟨hmem, hmin, fun hr => ?_⟩
  have h0 := hmin r hr
  rw [sub_self, abs_zero] at h0
  have h1 : |nearestSupportedRange r - r| = 0 := le_antisymm h0 (abs_nonneg _)
  exact sub_eq_zero.mp (abs_eq_zero.mp h1)

/-- Witness for C7: requesting exactly 5 V yields the 5 V ladder member. -/
theorem c7_witness : nearestSupportedRange 5 = 5 :=
  (c7_nearest_supported_range 5).2.2 (by norm_num [voltageLadder])

/-- C8 counterexample: at `max_adc = 0` the conversion helpers do not fail
at all, let alone with InvalidArgument — `mv_to_adc` returns the value 0
(the zero `max_adc` factor zeroes the result before truncation) and
`adc_to_mv` returns normally (numpy division by zero raises nothing). -/
theorem c8_counterexample :
    mv_to_adc_run 500 2 0 = Except.ok 0 ∧
    adc_to_mv_run [100] 2 0 = Except.ok [0] := by
  constructor
  · simp [mv_to_adc_run, pyTrunc]
  · simp [adc_to_mv_run, adc_to_mv]

/-- C8 amended: `mv_to_adc` and `adc_to_mv` have no error conditions at all
for ladder voltage ranges — whatever `max_adc` is, both return a value; in
particular at `max_adc = 0` the code returns values (0 for `mv_to_adc`)
instead of the InvalidArgument failure the spec prescribes as hardening. -/
theorem c8_no_invalid_argument (mv : ℚ) (r : ℚ) (m : ℤ) (adc : List ℚ)
    (hr : r ∈ voltageLadder) :
    (∃ z, mv_to_adc_run mv r m = Except.ok z) ∧
    (∃ l, adc_to_mv_run adc r m = Except.ok l) ∧
    mv_to_adc_run mv r 0 = Except.ok 0 := by
  have hr0 : r * 1000 ≠ 0 := by
    have h : ∀ y ∈ voltageLadder, y * 1000 ≠ 0 := by
      intro y hy
      simp only [voltageLadder] at hy
      fin_cases hy <;> norm_num
    exact h r hr
  refine ⟨⟨pyTrunc (mv / (r * 1000) * (m : ℚ)), ?_⟩, ⟨adc_to_mv adc r m, rfl⟩, ?_⟩
  · simp [mv_to_adc_run, hr0]
  · simp [mv_to_adc_run, hr0, pyTrunc]

/-- Witness for C8 (amended) at `mv = 500`, `r = 1` V, `max_adc = 32767`. -/
theorem c8_witness :
    (∃ z, mv_to_adc_run 500 1 32767 = Except.ok z) ∧
    (∃ l, adc_to_mv_run [100] 1 32767 = Except.ok l) ∧
    mv_to_adc_run 500 1 0 = Except.ok 0 :=
  c8_no_invalid_argument 500 1 32767 [100] (by norm_num [voltageLadder])

/-! ### C1: the session is never "connected" -/

/-- A session whose `current_device` is `None` reports not connected. -/
theorem is_connected_false_of_none (s : PicoScopeManager)
    (h : s.current_device = none) : is_connected s = false := by
  simp [is_connected, h]

/-- The function `connect` assigns `chandle`, `status` and `device_info` but never
touches `current_device`, on every control path. -/
theorem connect_preserves_current_device (drv : Driver) (s : PicoScopeManager) :
    (connect drv s).2.current_device = s.current_device := by
  unfold connect connectFinish
  split_ifs <;> rfl

/-- The function `disconnect` leaves a `None` `current_device` as `None`. -/
theorem disconnect_preserves_none (s : PicoScopeManager)
    (h : s.current_device = none) : (disconnect s).2.current_device = none := by
  cases hc : s.chandle with
  | none => simp [disconnect, hc, h]
  | some v =>
    by_cases hv : v = 0
    · simp [disconnect, hc, hv, h]
    · simp [disconnect, hc, hv]

/-- Not-connected early return of `configure_channel`. -/
theorem configure_channel_not_connected (drv : Driver) (s : PicoScopeManager)
    (config : ChannelConfig) (h : is_connected s = false) :
    configure_channel drv s config = ⟨false, s, []⟩ := by
  simp [configure_channel, h]

/-- Not-connected early return of `set_trigger`. -/
theorem set_trigger_not_connected (drv : Driver) (s : PicoScopeManager)
    (config : TriggerConfig) (h : is_connected s = false) :
    set_trigger drv s config = ⟨false, s, []⟩ := by
  simp [set_trigger, h]

/-- Not-connected early return of `capture_block`. -/
theorem capture_block_not_connected (drv : Driver) (s : PicoScopeManager)
    (pre post : ℕ) (h : is_connected s = false) :
    capture_block drv s pre post = ⟨none, s, []⟩ := by
  simp [capture_block, h]

/-- Every public operation keeps `current_device = none`. -/
theorem stepManager_preserves_none (drv : Driver) (s : PicoScopeManager)
    (op : ManagerOp) (h : s.current_device = none) :
    (stepManager drv s op).current_device = none := by
  have hcf : is_connected s = false := is_connected_false_of_none s h
  cases op with
  | discoverDevices => exact h
  | connectOp =>
    rw [stepManager, connect_preserves_current_device]
    exact h
  | disconnectOp => exact disconnect_preserves_none s h
  | isConnectedOp => exact h
  | getInfoOp => exact h
  | configureChannelOp config =>
    rw [stepManager, configure_channel_not_connected drv s config hcf]
    exact h
  | setTriggerOp config =>
    rw [stepManager, set_trigger_not_connected drv s config hcf]
    exact h
  | captureBlockOp pre post =>
    rw [stepManager, capture_block_not_connected drv s pre post hcf]
    exact h
  | startStreamingOp => exact h
  | stopStreamingOp => exact h

/-- The property `current_device = none` is an invariant of every run from `__init__`. -/
theorem runManager_current_device_none (ops : List (Driver × ManagerOp)) :
    (runManager ops).current_device = none := by
  suffices h : ∀ s : PicoScopeManager, s.current_device = none →
      (ops.foldl (fun s p => stepManager p.1 s p.2) s).current_device = none by
    exact h initialManager rfl
  induction ops with
  | nil => intro s hs; exact hs
  | cons p rest ih =>
    intro s hs
    exact ih _ (stepManager_preserves_none p.1 s p.2 hs)

/-- C1: after every sequence of device-manager operations `current_device`
is still `None` (`connect` assigns `chandle` and `device_info` but never
`current_device`), so `is_connected()` is `False` — even directly after one
more `connect`, successful or not — and `configure_channel`, `set_trigger`
and `capture_block` all take their not-connected failure branch: they
return `False` / `None`, change nothing and issue no driver call. -/
theorem c1_session_never_connected (ops : List (Driver × ManagerOp)) :
    (runManager ops).current_device = none ∧
    is_connected (runManager ops) = false ∧
    (∀ drv, (connect drv (runManager ops)).2.current_device = none ∧
      is_connected (connect drv (runManager ops)).2 = false) ∧
    (∀ drv config, configure_channel drv (runManager ops) config =
      ⟨false, runManager ops, []⟩) ∧
    (∀ drv config, set_trigger drv (runManager ops) config =
      ⟨false, runManager ops, []⟩) ∧
    (∀ drv pre post, capture_block drv (runManager ops) pre post =
      ⟨none, runManager ops, []⟩) := by
  have h := runManager_current_device_none ops
  have hcf := is_connected_false_of_none _ h
  refine ⟨h, hcf, fun drv => ?_, fun drv config => ?_, fun drv config => ?_,
    fun drv pre post => ?_⟩
  · have h2 : (connect drv (runManager ops)).2.current_device = none := by
      rw [connect_preserves_current_device]; exact h
    exact ⟨h2, is_connected_false_of_none _ h2⟩
  · exact configure_channel_not_connected drv _ config hcf
  · exact set_trigger_not_connected drv _ config hcf
  · exact capture_block_not_connected drv _ pre post hcf

/-! ### C10: disconnect is idempotent -/

/-- C10: `disconnect` on a session without a handle — never connected, or
already disconnected — returns `True` (never raises) and leaves every
session field exactly as it was. -/
theorem c10_disconnect_idempotent (s : PicoScopeManager)
    (h : s.chandle = none) : disconnect s = (true, s) := by
  simp [disconnect, h]

/-- Witness for C10: `disconnect` on the freshly initialized manager. -/
theorem c10_witness : disconnect initialManager = (true, initialManager) :=
  c10_disconnect_idempotent initialManager rfl

/-! ### C9: a rejected configure leaves the stored configuration intact -/

/-- C9: when the driver rejects `ps5000aSetChannel` (non-zero status), the
`assert_pico_ok` raise skips the store, so `configure_channel` returns
`False`, the stored channel-configuration mapping is exactly what it was,
and the connection fields (`current_device`, `chandle`, `device_info`) are
untouched — the session's connection state is unchanged. -/
theorem c9_failed_configure_preserves_state (drv : Driver)
    (s : PicoScopeManager) (config : ChannelConfig)
    (hrej : drv.setChannelStatus config.channel ≠ 0) :
    (configure_channel drv s config).value = false ∧
    (configure_channel drv s config).state.channel_configs = s.channel_configs ∧
    (configure_channel drv s config).state.current_device = s.current_device ∧
    (configure_channel drv s config).state.chandle = s.chandle ∧
    (configure_channel drv s config).state.device_info = s.device_info ∧
    is_connected (configure_channel drv s config).state = is_connected s := by
  by_cases h1 : is_connected s = false
  · rw [configure_channel_not_connected drv s config h1]
    exact ⟨rfl, rfl, rfl, rfl, rfl, rfl⟩
  · unfold configure_channel
    rw [if_neg h1]
    by_cases h2 : config.channel ∉ validChannels
    · rw [if_pos h2]
      exact ⟨rfl, rfl, rfl, rfl, rfl, rfl⟩
    · rw [if_neg h2]
      simp [if_neg hrej, is_connected]

/-- Witness for C9: channel B was stored at 1 V; a rejected reconfigure of
channel B leaves that stored entry as it was. -/
theorem c9_witness :
    (configure_channel drvRejectChannel
      { current_device := some ()
        device_info := none
        channel_configs := [("B", ⟨"B", true, .DC, 1, 0⟩)]
        chandle := some 16384
        status := [] }
      ⟨"B", true, .DC, 10, 0⟩).value = false ∧
    (configure_channel drvRejectChannel
      { current_device := some ()
        device_info := none
        channel_configs := [("B", ⟨"B", true, .DC, 1, 0⟩)]
        chandle := some 16384
        status := [] }
      ⟨"B", true, .DC, 10, 0⟩).state.channel_configs =
      [("B", ⟨"B", true, .DC, 1, 0⟩)] :=
  ⟨(c9_failed_configure_preserves_state drvRejectChannel _ _ (by decide)).1,
   (c9_failed_configure_preserves_state drvRejectChannel _ _ (by decide)).2.1⟩

/-! ### C4: trigger threshold range resolution -/

/-- Channel B configured at the 1 V range. -/
def chanB1V : ChannelConfig := ⟨"B", true, ChannelCoupling.DC, 1, 0⟩

/-- The `DeviceInfo` a successful `connect` builds. -/
def infoPS5000A : DeviceInfo :=
  ⟨16384, "PS5000A", "JX001/0001", "5444D", "JX001/0001", 32767, -32767, 4⟩

/-- A session state in which `current_device` is set (the state
`is_connected` actually tests for — see C1) with channel B stored at 1 V. -/
def sessionB1V : PicoScopeManager :=
  { current_device := some ()
    device_info := some infoPS5000A
    channel_configs := [("B", chanB1V)]
    chandle := some 16384
    status := [] }

/-- C4: on a session that passes the connected check, `set_trigger`
converts the threshold against the nearest supported range of the source
channel's *stored* configuration when one exists, and against the
`PS5000A_2V` default only when the source channel has no stored
configuration — visible in the threshold argument of the single
`ps5000aSetSimpleTrigger` driver call it issues. -/
theorem c4_trigger_threshold_range (drv : Driver) (s : PicoScopeManager)
    (info : DeviceInfo) (config : TriggerConfig)
    (hc : is_connected s = true) (hinfo : s.device_info = some info)
    (hsrc : config.source ∈ validSources) :
    (∀ chCfg, dictGet s.channel_configs config.source = some chCfg →
      (set_trigger drv s config).calls =
        [DriverCall.setSimpleTrigger 1 config.source
          (drv.mV2adc config.threshold_mv
            (rangeNameOf (nearestSupportedRange chCfg.voltage_range))
            info.max_adc_value)
          (directionNameOf config.direction) 0 config.auto_trigger_ms]) ∧
    (dictGet s.channel_configs config.source = none →
      (set_trigger drv s config).calls =
        [DriverCall.setSimpleTrigger 1 config.source
          (drv.mV2adc config.threshold_mv "PS5000A_2V" info.max_adc_value)
          (directionNameOf config.direction) 0 config.auto_trigger_ms]) := by
  have hc1 : ¬ is_connected s = false := by simp [hc]
  constructor
  · intro chCfg hlook
    unfold set_trigger
    rw [if_neg hc1, if_neg (not_not_intro hsrc)]
    simp [hlook, hinfo]
  · intro hlook
    unfold set_trigger
    rw [if_neg hc1, if_neg (not_not_intro hsrc)]
    simp [hlook, hinfo]

/-- Witness for C4: source B stored at 1 V, `threshold_mv = 500` — the
driver is asked to convert 500 mV against `PS5000A_1V`, not the
`PS5000A_2V` fallback. -/
theorem c4_witness :
    (set_trigger drvAccept sessionB1V
        ⟨"B", 500, TriggerDirection.Rising, 1000⟩).calls =
      [DriverCall.setSimpleTrigger 1 "B"
        (drvAccept.mV2adc 500 "PS5000A_1V" 32767) "PS5000A_RISING" 0 1000] := by
  have h := (c4_trigger_threshold_range drvAccept sessionB1V infoPS5000A
      ⟨"B", 500, TriggerDirection.Rising, 1000⟩ rfl rfl
      (by simp [validSources])).1 chanB1V rfl
  rw [h]
  norm_num [nearestSupportedRange, voltageLadder, rangeNameOf, chanB1V,
    infoPS5000A, directionNameOf, abs, max_def]

/-! ### C3: timebase negotiation -/

/-- The search's final timebase lies between the start and start + fuel. -/
theorem timebaseSearch_le (drv : Driver) (total : ℕ) :
    ∀ fuel tb st, tb ≤ (timebaseSearch drv total fuel tb st).timebase ∧
      (timebaseSearch drv total fuel tb st).timebase ≤ tb + fuel := by
  intro fuel
  induction fuel with
  | zero => intro tb st; exact ⟨le_refl _, by simp [timebaseSearch]⟩
  | succ n ih =>
    intro tb st
    by_cases h : st ≠ 0
    · simp only [timebaseSearch, if_pos h]
      obtain ⟨h1, h2⟩ := ih (tb + 1) (drv.getTimebaseStatus (tb + 1) total)
      exact ⟨by omega, by omega⟩
    · simp only [timebaseSearch, if_neg h]
      exact ⟨le_refl _, by omega⟩

/-- The `getTimebase2` calls made by the search are exactly the contiguous
run of indices from start + 1 up to the final timebase. -/
theorem timebaseSearch_calls (drv : Driver) (total : ℕ) :
    ∀ fuel tb st, (timebaseSearch drv total fuel tb st).calls =
      List.range' (tb + 1) ((timebaseSearch drv total fuel tb st).timebase - tb) := by
  intro fuel
  induction fuel with
  | zero => intro tb st; simp [timebaseSearch]
  | succ n ih =>
    intro tb st
    by_cases h : st ≠ 0
    · simp only [timebaseSearch, if_pos h]
      rw [ih]
      have hb := (timebaseSearch_le drv total n (tb + 1)
        (drv.getTimebaseStatus (tb + 1) total)).1
      have hs : (timebaseSearch drv total n (tb + 1)
            (drv.getTimebaseStatus (tb + 1) total)).timebase - tb
          = ((timebaseSearch drv total n (tb + 1)
            (drv.getTimebaseStatus (tb + 1) total)).timebase - (tb + 1)) + 1 := by
        omega
      rw [hs, List.range'_succ]
    · simp [timebaseSearch, if_neg h]

/-- Every index the search moved past was rejected by the driver. -/
theorem timebaseSearch_rejected (drv : Driver) (total : ℕ) :
    ∀ fuel tb st, st = drv.getTimebaseStatus tb total →
      ∀ i, tb ≤ i → i < (timebaseSearch drv total fuel tb st).timebase →
        drv.getTimebaseStatus i total ≠ 0 := by
  intro fuel
  induction fuel with
  | zero =>
    intro tb st hst i h1 h2
    simp [timebaseSearch] at h2
    omega
  | succ n ih =>
    intro tb st hst i h1 h2
    by_cases h : st ≠ 0
    · simp only [timebaseSearch, if_pos h] at h2
      by_cases hi : i = tb
      · subst hi
        rw [← hst]
        exact h
      · exact ih (tb + 1) (drv.getTimebaseStatus (tb + 1) total) rfl i
          (by omega) h2
    · simp only [timebaseSearch, if_neg h] at h2
      omega

/-- A capture whose timebase negotiation ends rejected returns `None`. -/
theorem capture_none_of_timebase_fail (drv : Driver) (s : PicoScopeManager)
    (pre post : ℕ)
    (h : (negotiateTimebase drv (pre + post)).status ≠ 0) :
    (capture_block drv s pre post).value = none := by
  by_cases h1 : is_connected s = false
  · rw [capture_block_not_connected drv s pre post h1]
  · by_cases h2 : (setBuffersLoop drv (pre + post) s.channel_configs s []).ok = false
    · simp [capture_block, h1, h2]
    · simp [capture_block, h1, h2, h]

/-- C3 (amended): the negotiation starts at timebase 0; every index below
the final one was rejected by the driver and answered by incrementing and
retrying; the `getTimebase2` calls are exactly indices 0 .. final, so at
most 101 attempts are made (indices 0 through 100, one more than the 100
the claim states); and when the final status is still a rejection the whole
capture returns `None` — no partial result. -/
theorem c3_timebase_negotiation (drv : Driver) (total : ℕ) :
    (negotiateTimebase drv total).calls =
      List.range ((negotiateTimebase drv total).timebase + 1) ∧
    (negotiateTimebase drv total).calls.length ≤ 101 ∧
    (∀ i < (negotiateTimebase drv total).timebase,
      drv.getTimebaseStatus i total ≠ 0) ∧
    (∀ s pre post, pre + post = total →
      (negotiateTimebase drv total).status ≠ 0 →
      (capture_block drv s pre post).value = none) := by
  have hc : (negotiateTimebase drv total).calls =
      0 :: (timebaseSearch drv total 100 0 (drv.getTimebaseStatus 0 total)).calls := rfl
  have ht : (negotiateTimebase drv total).timebase =
      (timebaseSearch drv total 100 0 (drv.getTimebaseStatus 0 total)).timebase := rfl
  have hcalls : (negotiateTimebase drv total).calls =
      List.range ((negotiateTimebase drv total).timebase + 1) := by
    rw [hc, ht, timebaseSearch_calls, List.range_eq_range', List.range'_succ]
    simp
  have hbound := (timebaseSearch_le drv total 100 0 (drv.getTimebaseStatus 0 total)).2
  refine ⟨hcalls, ?_, ?_, ?_⟩
  · rw [hcalls, List.length_range, ht]
    omega
  · intro i hi
    rw [ht] at hi
    exact timebaseSearch_rejected drv total 100 0 (drv.getTimebaseStatus 0 total)
      rfl i (Nat.zero_le i) hi
  · intro s pre post hpp hst
    exact capture_none_of_timebase_fail drv s pre post (by rw [hpp]; exact hst)

/-- C3 counterexample: against a driver that rejects every timebase, the
negotiation makes 101 `getTimebase2` calls — the claim's bound of "at most
100 attempts in total" is violated. -/
theorem c3_counterexample :
    ¬ (negotiateTimebase drvRejectTimebase 2000).calls.length ≤ 100 := by
  decide

/-- Witness for C3 (amended), at the all-rejecting driver: index 0 was
indeed rejected, and the capture as a whole fails with `None`. -/
theorem c3_witness :
    drvRejectTimebase.getTimebaseStatus 0 2000 ≠ 0 ∧
    (capture_block drvRejectTimebase sessionB1V 1000 1000).value = none :=
  ⟨(c3_timebase_negotiation drvRejectTimebase 2000).2.2.1 0 (by decide),
   (c3_timebase_negotiation drvRejectTimebase 2000).2.2.2 sessionB1V 1000 1000
     rfl (by decide)⟩

/-! ### C5: capture with zero enabled channels -/

/-- When no stored channel is enabled, the buffer loop registers nothing,
succeeds, and leaves state and call trace untouched. -/
theorem setBuffersLoop_all_disabled (drv : Driver) (total : ℕ) :
    ∀ (configs : List (String × ChannelConfig)) (s : PicoScopeManager)
      (calls : List DriverCall),
      (∀ p ∈ configs, p.2.enabled = false) →
      setBuffersLoop drv total configs s calls = ⟨true, s, calls, []⟩ := by
  intro configs
  induction configs with
  | nil => intro s calls h; rfl
  | cons p rest ih =>
    intro s calls h
    obtain ⟨ch, cfg⟩ := p
    have hp : cfg.enabled = false := h (ch, cfg) (List.mem_cons_self _ _)
    simp only [setBuffersLoop, hp, Bool.false_eq_true, if_false]
    exact ih s calls (fun q hq => h q (List.mem_cons_of_mem _ hq))

/-- C5: on a session that passes the connected check whose stored mapping
has zero enabled channels, `capture_block` (with a driver that accepts the
negotiated timebase, the run and the readout) returns success with an empty
channel mapping — `some []`, no error. -/
theorem c5_zero_enabled_channels (drv : Driver) (s : PicoScopeManager)
    (pre post : ℕ) (hc : is_connected s = true)
    (hen : ∀ p ∈ s.channel_configs, p.2.enabled = false)
    (hnt : (negotiateTimebase drv (pre + post)).status = 0)
    (hrb : drv.runBlockStatus = 0) (hgv : drv.getValuesStatus = 0) :
    (capture_block drv s pre post).value = some [] := by
  have hc1 : ¬ is_connected s = false := by simp [hc]
  have hb := setBuffersLoop_all_disabled drv (pre + post) s.channel_configs s [] hen
  simp [capture_block, hc1, hb, hnt, hrb, hgv]

/-- A session state passing the connected check with an empty stored
channel-configuration mapping. -/
def sessionNoChannels : PicoScopeManager :=
  { current_device := some ()
    device_info := some infoPS5000A
    channel_configs := []
    chandle := some 16384
    status := [] }

/-- Witness for C5 against the cooperative driver. -/
theorem c5_witness :
    (capture_block drvAccept sessionNoChannels 1000 1000).value = some [] :=
  c5_zero_enabled_channels drvAccept sessionNoChannels 1000 1000 rfl
    (by simp [sessionNoChannels]) rfl rfl rfl

/-! ### C2: block capture after a successful connect -/

/-- Channel A configured at the 5 V range. -/
def chanA5V : ChannelConfig := ⟨"A", true, ChannelCoupling.DC, 5, 0⟩

/-- The session state right after a successful `connect`, with channel A's
5 V configuration stored in the mapping (the best case the claim assumes;
`configure_channel` itself could never have stored it, for the same reason
the capture below fails). -/
def sessionAfterConnectA : PicoScopeManager :=
  { (connect drvAccept initialManager).2 with channel_configs := [("A", chanA5V)] }

/-- C2 (code-bug evaluation): `connect` succeeds — it returns `True` and
stores the handle and the device info — and yet `capture_block(1000, 1000)`
on the resulting session, even with channel A stored enabled at 5 V,
returns `None` without issuing a single driver call: the connected check
reads `current_device`, which `connect` never assigns, so no capture can
ever return the 2000-sample `CaptureData` the claim describes. -/
theorem c2_capture_after_connect_fails :
    (connect drvAccept initialManager).1 = true ∧
    (connect drvAccept initialManager).2.chandle = some 16384 ∧
    (connect drvAccept initialManager).2.device_info = some infoPS5000A ∧
    capture_block drvAccept sessionAfterConnectA 1000 1000 =
      ⟨none, sessionAfterConnectA, []⟩ := by
  refine ⟨rfl, rfl, rfl, ?_⟩
  exact capture_block_not_connected drvAccept sessionAfterConnectA 1000 1000 rfl

end Picoscope
